import Mathlib

/-!
Verification development for `src/benchmark_auto_score.py`.

The embedding below models the judge-response interpretation and scoring
pipeline of the script: the pure parsing core of `get_auto_score`
(lines 215-270), `calculate_tokens_per_sec` (lines 273-277), the composite
computation and status tagging of `main` (lines 417-440), and the per-model
average of `main` (lines 461-469).

Modelling conventions:
* Python strings are `List Char`.  All text processing is ASCII in the inputs
  of interest; Python's Unicode word/whitespace classes are modelled by their
  ASCII restrictions (`Char.isAlphanum`, explicit whitespace sets).
* Python numbers are modelled exactly as CPython computes them: JSON integer
  literals are arbitrary-precision ints; other number literals are rounded to
  the nearest IEEE 754 binary64 double (`decimalToDouble`, with ties to even,
  subnormals, and overflow to the infinities), kept exactly as `m * 2^e`; the
  float arithmetic of the script (throughput, composite, average) is carried
  out in `ℚ`, and Python's `round` (banker's rounding) is `pythonRound`.
* `json.loads` is modelled by `jsonLoads`, a parser for the exact fragment
  that can reach it in the script: the argument is always a regex match of
  `\x7b[^{}]*"correctness"[^{}]*\x7d`, hence a single brace-delimited span
  with no nested braces, so the parsed value is a flat object whose values
  are numbers (including the default `NaN`/`Infinity`/`-Infinity` constants),
  strings, booleans, `null`, or (nested) arrays of these; object values
  cannot occur in a brace-free span.  Surrogate pair combination in \u
  escapes is not modelled; no claim depends on it.
* Python exceptions are explicit: `int()` returns a `PyIntResult` separating
  a value, an exception caught by line 250's
  `except (json.JSONDecodeError, ValueError, TypeError)` clause, and an
  `OverflowError` (from `int()` on an infinite float), which that clause does
  not catch; `get_auto_score` returns `none` exactly when such an uncaught
  exception propagates to its caller.
-/

namespace BenchmarkAutoScore

/-- The opening brace character, `\x7b`. -/
def lbrace : Char := '\x7b'

/-- The closing brace character, `\x7d`. -/
def rbrace : Char := '\x7d'

/-- Characters matched by the regex class `[^{}]`. -/
def nonBrace (c : Char) : Bool := !(c = lbrace || c = rbrace)

/-- Word characters for the regex `\b` word boundary (ASCII restriction of
Python's Unicode word class): alphanumerics and underscore. -/
def isWordChar (c : Char) : Bool := c.isAlphanum || c = '_'

/-- Python's `needle in haystack` substring test on strings. -/
def containsSubstr (needle : List Char) : List Char → Bool
  | [] => needle.isEmpty
  | c :: rest => needle.isPrefixOf (c :: rest) || containsSubstr needle rest

/-- The literal `"correctness"` (with the surrounding JSON quotes) that the
regex at line 228 requires inside the brace span. -/
def keyPattern : List Char := "\"correctness\"".data

/-- Model of `re.search(r'\x7b[^{}]*"correctness"[^{}]*\x7d', judge_text)`
(line 228), returning the matched span.  `re.search` tries start positions
left to right; at a `\x7b` the greedy brace-free body forces the match to end
at the first following brace, which must be `\x7d`, and the body must contain
`"correctness"`.  On failure the scan resumes one character further right. -/
def scanJsonSpan : List Char → Option (List Char)
  | [] => none
  | c :: rest =>
    if c = lbrace then
      match rest.dropWhile nonBrace with
      | c2 :: _ =>
        if c2 = rbrace && containsSubstr keyPattern (rest.takeWhile nonBrace) then
          some (lbrace :: (rest.takeWhile nonBrace ++ [rbrace]))
        else scanJsonSpan rest
      | [] => scanJsonSpan rest
    else scanJsonSpan rest

/-- Python float values as produced by `json.loads` for non-integer number
literals and the `NaN`/`Infinity`/`-Infinity` constants: an IEEE 754 binary64
value.  A finite double is kept exactly as `m * 2^e` with `m` odd or zero
(every finite double has such a canonical form); the rounding of a decimal
literal to the nearest double is `decimalToDouble` below. -/
inductive PyFloat where
  | finite (m : ℤ) (e : ℤ)
  | inf
  | neginf
  | nan
deriving DecidableEq

mutual

/-- JSON values as produced by `json.loads` on a flat, brace-free span:
integer literals become exact Python ints, other number literals and the
float constants become doubles, plus strings, booleans, `null` and arrays. -/
inductive JVal where
  | intLit (n : ℤ)
  | floatLit (f : PyFloat)
  | str (s : List Char)
  | bool (b : Bool)
  | null
  | arr (elems : JArr)
deriving DecidableEq

/-- Array spine for `JVal.arr` (a mutual type, so that equality stays
derivable). -/
inductive JArr where
  | nil
  | cons (v : JVal) (tail : JArr)
deriving DecidableEq

end

/-- JSON whitespace accepted by `json.loads` between tokens. -/
def isJsonWs (c : Char) : Bool := c = ' ' || c = '\t' || c = '\n' || c = '\r'

/-- Hexadecimal digit value, for `\u` escapes. -/
def hexVal (c : Char) : Option ℕ :=
  if c.isDigit then some (c.toNat - 48)
  else if 'a' ≤ c && c ≤ 'f' then some (c.toNat - 87)
  else if 'A' ≤ c && c ≤ 'F' then some (c.toNat - 55)
  else none

/-- Single-character JSON string escapes. -/
def escChar (c : Char) : Option Char :=
  if c = '"' then some '"'
  else if c = '\\' then some '\\'
  else if c = '/' then some '/'
  else if c = 'b' then some '\x08'
  else if c = 'f' then some '\x0c'
  else if c = 'n' then some '\n'
  else if c = 'r' then some '\r'
  else if c = 't' then some '\t'
  else none

/-- JSON string body parser, positioned after the opening quote.  Returns the
decoded content and the input following the closing quote.  Raw control
characters are rejected (strict mode of `json.loads`). -/
def parseStringAux : List Char → Option (List Char × List Char)
  | [] => none
  | c :: r =>
    if c = '"' then some ([], r)
    else if c = '\\' then
      match r with
      | [] => none
      | e :: r2 =>
        if e = 'u' then
          match r2 with
          | h1 :: h2 :: h3 :: h4 :: r3 =>
            match hexVal h1, hexVal h2, hexVal h3, hexVal h4 with
            | some a, some b, some c3, some d =>
              (parseStringAux r3).map
                (fun p => (Char.ofNat (((a * 16 + b) * 16 + c3) * 16 + d) :: p.1, p.2))
            | _, _, _, _ => none
          | _ => none
        else
          match escChar e with
          | some ch => (parseStringAux r2).map (fun p => (ch :: p.1, p.2))
          | none => none
    else if c.toNat < 32 then none
    else (parseStringAux r).map (fun p => (c :: p.1, p.2))

/-- Decimal digits to a natural number. -/
def digitsToNat (l : List Char) : ℕ :=
  l.foldl (fun a c => a * 10 + (c.toNat - 48)) 0

/-- Integer part of a JSON number: `0`, or a nonzero leading digit followed by
digits (JSON forbids extra leading zeros; a digit left behind after a leading
`0` makes the enclosing object parse fail at the delimiter check). -/
def parseIntPart : List Char → Option (ℕ × List Char)
  | [] => none
  | c :: r =>
    if c = '0' then some (0, r)
    else if c.isDigit then
      some (digitsToNat (c :: r.takeWhile Char.isDigit), r.dropWhile Char.isDigit)
    else none

/-- Optional exponent part `[eE][+-]?digits` of a JSON number; `none` when
absent or malformed (a stray `e` is left unconsumed and the stray characters
then fail the enclosing delimiter check, as in Python). -/
def parseExpPart (l : List Char) : Option (ℤ × List Char) :=
  match l with
  | c :: r =>
    if c = 'e' || c = 'E' then
      match r with
      | s :: r2 =>
        if s = '+' then
          (if (r2.takeWhile Char.isDigit).isEmpty then none
           else some ((digitsToNat (r2.takeWhile Char.isDigit) : ℤ), r2.dropWhile Char.isDigit))
        else if s = '-' then
          (if (r2.takeWhile Char.isDigit).isEmpty then none
           else some (-(digitsToNat (r2.takeWhile Char.isDigit) : ℤ), r2.dropWhile Char.isDigit))
        else
          (if (r.takeWhile Char.isDigit).isEmpty then none
           else some ((digitsToNat (r.takeWhile Char.isDigit) : ℤ), r.dropWhile Char.isDigit))
      | [] => none
    else none
  | [] => none

/-- Optional fraction part `.digits` of a JSON number: the fraction digits'
value, their count, and the rest; `none` when absent (a bare dot is left
unconsumed). -/
def parseFracPart (l : List Char) : Option (ℕ × ℕ × List Char) :=
  match l with
  | c :: r =>
    if c = '.' then
      if (r.takeWhile Char.isDigit).isEmpty then none
      else some (digitsToNat (r.takeWhile Char.isDigit), (r.takeWhile Char.isDigit).length,
            r.dropWhile Char.isDigit)
    else none
  | [] => none

/-- Two to a natural power, as an integer. -/
def twoPow (k : ℕ) : ℤ := Int.ofNat (2 ^ k)

/-- Bit length of a natural number (`0` for `0`), computed with explicit fuel
so that the kernel can evaluate it on large inputs. -/
def bitLenAux : ℕ → ℕ → ℕ
  | 0, _ => 0
  | fuel + 1, n => if n = 0 then 0 else bitLenAux fuel (n / 2) + 1

/-- Bit length wrapper: fuel `n` always suffices. -/
def bitLen (n : ℕ) : ℕ := bitLenAux n n

/-- Integer division rounded to nearest, ties to even. -/
def rheDiv (a b : ℕ) : ℕ :=
  let q := a / b
  let r := a % b
  if 2 * r < b then q
  else if b < 2 * r then q + 1
  else if q % 2 = 0 then q else q + 1

/-- Decide `d * 2^e ≤ a` for a possibly negative exponent `e`. -/
def cmpPow (a d : ℕ) (e : ℤ) : Bool :=
  if 0 ≤ e then d * 2 ^ e.toNat ≤ a else d ≤ a * 2 ^ (-e).toNat

/-- Strip factors of two, canonicalising a significand/exponent pair. -/
def stripTwosAux : ℕ → ℕ → ℤ → ℕ × ℤ
  | 0, s, p => (s, p)
  | fuel + 1, s, p => if s % 2 = 0 ∧ s ≠ 0 then stripTwosAux fuel (s / 2) (p + 1) else (s, p)

/-- Round the exact decimal `m * 10^netExp` to the nearest IEEE 754 binary64
value (round to nearest, ties to even), as CPython's `float()` does when
`json.loads` converts a non-integer number literal.  The value `a/d` (with
`a`, `d` the decimal scaled to an integer fraction) has its binary exponent
`e0` located via bit lengths plus one exact comparison; the significand is
rounded at precision `p = e0 - 52` (clamped at `2^-1074`, which covers the
subnormals and underflow to zero); a rounded value of at least `2^1024`
overflows to the signed infinity; finally the significand is canonicalised
by stripping factors of two. -/
def decimalToDouble (m : ℤ) (netExp : ℤ) : PyFloat :=
  let a : ℕ := m.natAbs * (if 0 ≤ netExp then 10 ^ netExp.toNat else 1)
  let d : ℕ := if 0 ≤ netExp then 1 else 10 ^ (-netExp).toNat
  if a = 0 then PyFloat.finite 0 0
  else
    let eA : ℤ := (bitLen a : ℤ) - (bitLen d : ℤ)
    let e0 : ℤ := if cmpPow a d eA then eA else eA - 1
    let p : ℤ := max (e0 - 52) (-1074)
    let s : ℕ := if 0 ≤ p then rheDiv a (d * 2 ^ p.toNat) else rheDiv (a * 2 ^ (-p).toNat) d
    if 0 ≤ p ∧ 2 ^ 1024 ≤ s * 2 ^ p.toNat then
      (if m < 0 then PyFloat.neginf else PyFloat.inf)
    else
      let n := stripTwosAux s s p
      if n.1 = 0 then PyFloat.finite 0 0
      else PyFloat.finite (if m < 0 then -(n.1 : ℤ) else (n.1 : ℤ)) n.2

/-- JSON number parser: sign, integer part, optional fraction and exponent.
An integer literal (no fraction, no exponent) becomes an exact Python int;
any other literal becomes the nearest binary64 double of its exact decimal
value, as CPython's `float()` computes it. -/
def parseNumber (l : List Char) : Option (JVal × List Char) :=
  let signed : Bool × List Char :=
    match l with
    | c :: r => if c = '-' then (true, r) else (false, l)
    | [] => (false, l)
  match parseIntPart signed.2 with
  | none => none
  | some (ip, l2) =>
    let fracRes := parseFracPart l2
    let frac : ℕ × ℕ × List Char := fracRes.getD (0, 0, l2)
    let expRes := parseExpPart frac.2.2
    let expp : ℤ × List Char := expRes.getD (0, frac.2.2)
    let mant : ℤ :=
      (if signed.1 then -1 else 1) * (Int.ofNat (ip * 10 ^ frac.2.1 + frac.1))
    if fracRes.isSome || expRes.isSome then
      some (JVal.floatLit (decimalToDouble mant (expp.1 - (frac.2.1 : ℤ))), expp.2)
    else some (JVal.intLit mant, expp.2)

mutual

/-- JSON value parser (fueled, since arrays nest; two units of fuel per input
character suffice): strings, the keyword literals including Python's default
`NaN` / `Infinity` / `-Infinity` constants, arrays, and numbers.  Objects
cannot occur in a regex span, which contains no braces. -/
def parseValueF : ℕ → List Char → Option (JVal × List Char)
  | 0, _ => none
  | fuel + 1, l =>
    match l with
    | '"' :: r => (parseStringAux r).map (fun p => (JVal.str p.1, p.2))
    | 't' :: 'r' :: 'u' :: 'e' :: r => some (JVal.bool true, r)
    | 'f' :: 'a' :: 'l' :: 's' :: 'e' :: r => some (JVal.bool false, r)
    | 'n' :: 'u' :: 'l' :: 'l' :: r => some (JVal.null, r)
    | 'N' :: 'a' :: 'N' :: r => some (JVal.floatLit PyFloat.nan, r)
    | 'I' :: 'n' :: 'f' :: 'i' :: 'n' :: 'i' :: 't' :: 'y' :: r =>
      some (JVal.floatLit PyFloat.inf, r)
    | '-' :: 'I' :: 'n' :: 'f' :: 'i' :: 'n' :: 'i' :: 't' :: 'y' :: r =>
      some (JVal.floatLit PyFloat.neginf, r)
    | '[' :: r =>
      (match r.dropWhile isJsonWs with
       | ']' :: r2 => some (JVal.arr JArr.nil, r2)
       | _ => (parseElems fuel r).map (fun p => (JVal.arr p.1, p.2)))
    | _ => parseNumber l

/-- Comma-separated array elements up to the closing bracket. -/
def parseElems : ℕ → List Char → Option (JArr × List Char)
  | 0, _ => none
  | fuel + 1, l =>
    match parseValueF fuel (l.dropWhile isJsonWs) with
    | none => none
    | some (v, r) =>
      match r.dropWhile isJsonWs with
      | c :: r2 =>
        if c = ',' then
          match parseElems fuel r2 with
          | some (vs, r3) => some (JArr.cons v vs, r3)
          | none => none
        else if c = ']' then some (JArr.cons v JArr.nil, r2)
        else none
      | [] => none

end

/-- One `"key": value` member of a JSON object. -/
def parsePair (l : List Char) : Option ((List Char × JVal) × List Char) :=
  match l.dropWhile isJsonWs with
  | '"' :: r =>
    match parseStringAux r with
    | some (key, r1) =>
      match r1.dropWhile isJsonWs with
      | ':' :: r2 =>
        match parseValueF (2 * (r2.dropWhile isJsonWs).length + 2) (r2.dropWhile isJsonWs) with
        | some (v, r3) => some ((key, v), r3)
        | none => none
      | _ => none
    | none => none
  | _ => none

/-- Comma-separated members of a JSON object up to the closing brace.  The
fuel argument bounds the recursion by the input length. -/
def parseMembers : ℕ → List Char → Option (List (List Char × JVal) × List Char)
  | 0, _ => none
  | fuel + 1, l =>
    match parsePair l with
    | none => none
    | some (kv, r) =>
      match r.dropWhile isJsonWs with
      | c :: r2 =>
        if c = ',' then
          match parseMembers fuel r2 with
          | some (kvs, r3) => some (kv :: kvs, r3)
          | none => none
        else if c = rbrace then some ([kv], r2)
        else none
      | [] => none

/-- Model of `json.loads` (line 232) on the regex-matched span: a flat JSON
object, entire input consumed up to trailing whitespace. -/
def jsonLoads (l : List Char) : Option (List (List Char × JVal)) :=
  match l.dropWhile isJsonWs with
  | c :: r =>
    if c = lbrace then
      match r.dropWhile isJsonWs with
      | c2 :: r2 =>
        if c2 = rbrace then
          if (r2.dropWhile isJsonWs).isEmpty then some [] else none
        else
          match parseMembers (r.length + 1) r with
          | some (kvs, rest) =>
            if (rest.dropWhile isJsonWs).isEmpty then some kvs else none
          | none => none
      | [] => none
    else none
  | [] => none

/-- Python dict lookup `d.get(k)` on the parsed member list: a later duplicate
key overwrites an earlier one. -/
def dictGet (kvs : List (List Char × JVal)) (k : List Char) : Option JVal :=
  match kvs with
  | [] => none
  | (k2, v) :: rest =>
    match dictGet rest k with
    | some v2 => some v2
    | none => if k2 = k then some v else none

/-- Whitespace stripped by Python's `int(str)` conversion (ASCII restriction). -/
def isPyWs (c : Char) : Bool :=
  c = ' ' || c = '\t' || c = '\n' || c = '\r' || c = '\x0b' || c = '\x0c'

/-- Digit run accepted by Python's `int(str)`: decimal digits with single
underscores allowed between digits. -/
def pyIntDigitsAux : ℕ → List Char → Option ℕ
  | acc, [] => some acc
  | acc, c :: r =>
    if c.isDigit then pyIntDigitsAux (acc * 10 + (c.toNat - 48)) r
    else if c = '_' then
      match r with
      | d :: r2 =>
        if d.isDigit then pyIntDigitsAux (acc * 10 + (d.toNat - 48)) r2 else none
      | [] => none
    else none

/-- Nonempty digit run for `int(str)`. -/
def pyIntDigits : List Char → Option ℕ
  | [] => none
  | c :: r => if c.isDigit then pyIntDigitsAux (c.toNat - 48) r else none

/-- Python's `int(s)` on a string: optional surrounding whitespace, optional
sign, then decimal digits; everything else raises `ValueError` (`none`). -/
def pyIntOfStr (s : List Char) : Option ℤ :=
  match ((s.dropWhile isPyWs).reverse.dropWhile isPyWs).reverse with
  | '+' :: r => (pyIntDigits r).map Int.ofNat
  | '-' :: r => (pyIntDigits r).map (fun n => -(Int.ofNat n))
  | t => (pyIntDigits t).map Int.ofNat

/-- Truncation toward zero of `m / 2^k`: Python's `int()` on a finite double
with negative exponent. -/
def truncTwo (m : ℤ) (k : ℕ) : ℤ :=
  if 0 ≤ m then m / twoPow k else -((-m) / twoPow k)

/-- Outcome of Python's `int(x)` at line 233-235: a value, an exception
caught by line 250's `except (json.JSONDecodeError, ValueError, TypeError)`
clause, or an exception that clause does not catch, which therefore
propagates out of `get_auto_score`. -/
inductive PyIntResult where
  | ok (n : ℤ)
  | caught
  | uncaught
deriving DecidableEq

/-- Python's `int()` on a float: truncation toward zero on finite doubles;
`int(nan)` raises `ValueError` (caught at line 250) while `int(±inf)` raises
`OverflowError`, which line 250 does not catch. -/
def floatToInt : PyFloat → PyIntResult
  | PyFloat.finite m e =>
    PyIntResult.ok (if 0 ≤ e then m * twoPow e.toNat else truncTwo m (-e).toNat)
  | PyFloat.inf => PyIntResult.uncaught
  | PyFloat.neginf => PyIntResult.uncaught
  | PyFloat.nan => PyIntResult.caught

/-- Python's `int(x)` on a decoded JSON value: identity on ints, float
truncation (or overflow) on doubles, string parsing on strings (`ValueError`
when malformed), 0/1 on booleans, `TypeError` on `null` and on lists. -/
def pyInt : JVal → PyIntResult
  | JVal.intLit n => PyIntResult.ok n
  | JVal.floatLit f => floatToInt f
  | JVal.str s =>
    (match pyIntOfStr s with
     | some n => PyIntResult.ok n
     | none => PyIntResult.caught)
  | JVal.bool b => PyIntResult.ok (if b then 1 else 0)
  | JVal.null => PyIntResult.caught
  | JVal.arr _ => PyIntResult.caught

/-- Clamp of lines 239-241: `max(1, min(10, x)) if x > 0 else 0`. -/
def clampScore (n : ℤ) : ℤ := if 0 < n then max 1 (min 10 n) else 0

/-- Value of a matched digit token. -/
def digitInt (c : Char) : ℤ := Int.ofNat (c.toNat - 48)

/-- Left word boundary test: true at the start of the text or after a
non-word character. -/
def atBoundary (prev : Option Char) : Bool :=
  match prev with
  | none => true
  | some p => !isWordChar p

/-- Right word boundary test: true at the end of the text or before a
non-word character. -/
def boundaryNext (l : List Char) : Bool :=
  match l with
  | [] => true
  | e :: _ => !isWordChar e

/-- Single digit `1`-`9`, the first alternative of the scraping regex. -/
def isDigit19 (c : Char) : Bool := c.isDigit && c ≠ '0'

/-- Model of `re.findall(r'\b([1-9]|10)\b', judge_text)` (line 254), already
converted through `int` as at lines 257-259.  The scan carries the previous
character to decide the left word boundary; the alternation tries the single
digit before `10`, and after a match the scan resumes at the match end. -/
def scrapeAux : Option Char → List Char → List ℤ
  | _, [] => []
  | prev, [c] => if atBoundary prev && isDigit19 c then [digitInt c] else []
  | prev, c :: d :: rest2 =>
    if atBoundary prev && isDigit19 c then
      if !isWordChar d then digitInt c :: scrapeAux (some c) (d :: rest2)
      else if c = '1' && d = '0' && boundaryNext rest2 then
        10 :: scrapeAux (some '0') rest2
      else scrapeAux (some c) (d :: rest2)
    else scrapeAux (some c) (d :: rest2)

/-- Digit-token scan of the full text, at a left word boundary initially. -/
def scrapeNumbers (t : List Char) : List ℤ := scrapeAux none t

/-- Structured result of the score extraction (the dict returned by
`get_auto_score`): three clamped integer scores, the judge's reasoning (an
arbitrary decoded JSON value in the structured tier, a fixed message
elsewhere), and the raw response text. -/
structure JudgeScore where
  correctness : ℤ
  efficiency : ℤ
  outcome : ℤ
  reasoning : JVal
  raw_response : List Char
deriving DecidableEq

/-- Outcome of the structured-extraction tier: a returned score tuple, a
fall-through to the numeric scrape (no regex match, JSON parse failure, or a
caught coercion exception), or an uncaught exception that propagates. -/
inductive StructOutcome where
  | ok (c e o : ℤ) (r : JVal)
  | err
  | raised
deriving DecidableEq

/-- Structured-extraction tier (lines 228-251, before clamping): locate the
first brace span containing `"correctness"`, parse it as JSON, then coerce
`correctness`, `efficiency`, `outcome` with `int(...)` in that order
(defaulting an absent field to the int 0) and read `reasoning` (default
`"No reasoning provided"`).  A missing regex match, a JSON parse failure or a
caught coercion exception gives `err` (fall through to the scrape); an
uncaught `OverflowError` in the first of the three sequential coercions to
fail gives `raised`. -/
def structuredScores (t : List Char) : StructOutcome :=
  match scanJsonSpan t with
  | none => StructOutcome.err
  | some span =>
    match jsonLoads span with
    | none => StructOutcome.err
    | some scores =>
      match pyInt ((dictGet scores "correctness".data).getD (JVal.intLit 0)) with
      | PyIntResult.uncaught => StructOutcome.raised
      | PyIntResult.caught => StructOutcome.err
      | PyIntResult.ok c =>
        match pyInt ((dictGet scores "efficiency".data).getD (JVal.intLit 0)) with
        | PyIntResult.uncaught => StructOutcome.raised
        | PyIntResult.caught => StructOutcome.err
        | PyIntResult.ok e =>
          match pyInt ((dictGet scores "outcome".data).getD (JVal.intLit 0)) with
          | PyIntResult.uncaught => StructOutcome.raised
          | PyIntResult.caught => StructOutcome.err
          | PyIntResult.ok o =>
            StructOutcome.ok c e o
              ((dictGet scores "reasoning".data).getD
                (JVal.str "No reasoning provided".data))

/-- Parsing core of `get_auto_score` (lines 215-270), as a function of the
judge's reply text: empty-reply short-circuit, structured extraction with
clamping, numeric-scrape fallback, zero-sentinel total failure.  `none`
models the call raising an uncaught exception (an `OverflowError` from
`int()` on an infinite float) to its caller instead of returning. -/
def get_auto_score (judge_text : List Char) : Option JudgeScore :=
  if judge_text.isEmpty then
    some
      { correctness := 0, efficiency := 0, outcome := 0,
        reasoning := JVal.str "Judge returned empty response".data, raw_response := [] }
  else
    match structuredScores judge_text with
    | StructOutcome.ok c e o r =>
      some
        { correctness := clampScore c, efficiency := clampScore e,
          outcome := clampScore o, reasoning := r, raw_response := judge_text }
    | StructOutcome.raised => none
    | StructOutcome.err =>
      match scrapeNumbers judge_text with
      | n1 :: n2 :: n3 :: _ =>
        some
          { correctness := n1, efficiency := n2, outcome := n3,
            reasoning := JVal.str "Extracted from non-JSON response".data,
            raw_response := judge_text }
      | _ =>
        some
          { correctness := 0, efficiency := 0, outcome := 0,
            reasoning := JVal.str "Could not parse judge response".data,
            raw_response := judge_text }

/-- Round half to even on `ℚ`, the behaviour of Python's `round` at a tie. -/
def roundHalfEven (q : ℚ) : ℤ :=
  if q - ⌊q⌋ < 1 / 2 then ⌊q⌋
  else if 1 / 2 < q - ⌊q⌋ then ⌊q⌋ + 1
  else if Even ⌊q⌋ then ⌊q⌋ else ⌊q⌋ + 1

/-- Python's `round(q, n)` to `n` decimal places, on exact rationals. -/
def pythonRound (n : ℕ) (q : ℚ) : ℚ :=
  (roundHalfEven (q * 10 ^ n) : ℚ) / 10 ^ n

/-- Model of `calculate_tokens_per_sec` (lines 273-277): the guard mirrors
`if eval_duration and eval_duration > 0` (truthiness plus sign test). -/
def calculate_tokens_per_sec (eval_count : ℤ) (eval_duration : ℤ) : ℚ :=
  if eval_duration ≠ 0 ∧ 0 < eval_duration then
    pythonRound 2 ((eval_count : ℚ) / ((eval_duration : ℚ) / 1000000000))
  else 0

/-- Composite score and status tag of `main` (lines 417-427): the mean of the
three scores rounded to one decimal with status `"OK"` when correctness is
positive, otherwise composite 0 with status `"SCORE_FAILED"`. -/
def composite_and_status (scores : JudgeScore) : ℚ × List Char :=
  if 0 < scores.correctness then
    (pythonRound 1
       (((scores.correctness : ℚ) + (scores.efficiency : ℚ) + (scores.outcome : ℚ)) / 3),
     "OK".data)
  else (0, "SCORE_FAILED".data)

/-- Per-model average of `main` (lines 468-469): mean of the task composites
that are strictly positive, rounded to one decimal; 0 when none is. -/
def model_average (r_score c_score l_score : ℚ) : ℚ :=
  let valid := [r_score, c_score, l_score].filter (fun s => decide (0 < s))
  if valid.isEmpty then 0
  else pythonRound 1 (valid.sum / (valid.length : ℚ))

/-- Modelled from the spec: the summary average described as the mean of the
model's nonzero task composites (rounded to one decimal), 0 when all are zero.
Used as the refinement target for the claim about `model_average`. -/
def specNonzeroMean (r_score c_score l_score : ℚ) : ℚ :=
  let nz := [r_score, c_score, l_score].filter (fun s => decide (s ≠ 0))
  if nz.isEmpty then 0
  else pythonRound 1 (nz.sum / (nz.length : ℚ))

/-! Helper lemmas about the embedded operations. -/

lemma char_isDigit_toNat {c : Char} (h : c.isDigit = true) : 48 ≤ c.toNat ∧ c.toNat ≤ 57 := by
  simp [Char.isDigit, UInt32.le_def, BitVec.le_def, decide_eq_true_eq] at h
  exact h

lemma char_ne_zero_toNat {c : Char} (h : c ≠ '0') : c.toNat ≠ 48 := by
  intro hn
  exact h (Char.ext (UInt32.ext hn))

lemma digitInt_range {c : Char} (h : isDigit19 c = true) :
    1 ≤ digitInt c ∧ digitInt c ≤ 9 := by
  simp only [isDigit19, Bool.and_eq_true, decide_eq_true_eq] at h
  obtain ⟨hd, hne⟩ := h
  have h1 := char_isDigit_toNat hd
  have h2 := char_ne_zero_toNat hne
  simp only [digitInt, Int.ofNat_eq_natCast]
  omega

lemma clampScore_nonneg (n : ℤ) : 0 ≤ clampScore n := by
  unfold clampScore; split <;> omega

lemma clampScore_le_ten (n : ℤ) : clampScore n ≤ 10 := by
  unfold clampScore; split <;> omega

lemma clampScore_eq_self {n : ℤ} (h1 : 1 ≤ n) (h10 : n ≤ 10) : clampScore n = n := by
  unfold clampScore; split <;> omega

lemma twoPow_pos (k : ℕ) : 0 < twoPow k := by
  unfold twoPow
  rw [Int.ofNat_eq_natCast]
  exact_mod_cast pow_pos (by norm_num : (0:ℕ) < 2) k

lemma truncTwo_zero_exp (m : ℤ) : truncTwo m 0 = m := by
  have h1 : twoPow 0 = 1 := rfl
  rw [truncTwo, h1]
  split <;> simp [Int.ediv_one]

lemma truncTwo_one_le {m : ℤ} {k : ℕ} (h : twoPow k ≤ m) : 1 ≤ truncTwo m k := by
  have hp := twoPow_pos k
  rw [truncTwo, if_pos (by omega : (0:ℤ) ≤ m)]
  rw [Int.le_ediv_iff_mul_le hp, one_mul]
  exact h

lemma truncTwo_ten_le {m : ℤ} {k : ℕ} (h : 10 * twoPow k ≤ m) : 10 ≤ truncTwo m k := by
  have hp := twoPow_pos k
  rw [truncTwo, if_pos (by nlinarith : (0:ℤ) ≤ m)]
  rw [Int.le_ediv_iff_mul_le hp]
  exact h

lemma truncTwo_eq_zero_of_lt {m : ℤ} {k : ℕ} (h0 : 0 ≤ m) (h : m < twoPow k) :
    truncTwo m k = 0 := by
  rw [truncTwo, if_pos h0]
  exact Int.ediv_eq_zero_of_lt h0 h

lemma truncTwo_nonpos_of_neg {m : ℤ} {k : ℕ} (h : m < 0) : truncTwo m k ≤ 0 := by
  rw [truncTwo, if_neg (by omega)]
  have := Int.ediv_nonneg (by omega : (0:ℤ) ≤ -m) (le_of_lt (twoPow_pos k))
  omega

lemma twoPow_cast (k : ℕ) : ((twoPow k : ℤ) : ℚ) = 2 ^ k := by
  unfold twoPow
  rw [Int.ofNat_eq_natCast]
  push_cast
  ring

lemma one_le_q2_iff (m : ℤ) (k : ℕ) : 1 ≤ (m : ℚ) / 2 ^ k ↔ twoPow k ≤ m := by
  rw [one_le_div (by positivity : (0:ℚ) < 2 ^ k), ← twoPow_cast k, Int.cast_le]

lemma q2_lt_one_iff (m : ℤ) (k : ℕ) : (m : ℚ) / 2 ^ k < 1 ↔ m < twoPow k := by
  rw [div_lt_one (by positivity : (0:ℚ) < 2 ^ k), ← twoPow_cast k, Int.cast_lt]

lemma ten_lt_q2_iff (m : ℤ) (k : ℕ) : 10 < (m : ℚ) / 2 ^ k ↔ 10 * twoPow k < m := by
  rw [lt_div_iff₀ (by positivity : (0:ℚ) < 2 ^ k), ← twoPow_cast k]
  exact_mod_cast Iff.rfl

lemma floatToInt_neg_exp (m : ℤ) (k : ℕ) :
    floatToInt (PyFloat.finite m (-(k : ℤ))) = PyIntResult.ok (truncTwo m k) := by
  by_cases hk : k = 0
  · subst hk
    simp [floatToInt, truncTwo_zero_exp, twoPow]
  · have hneg : ¬(0 ≤ -(k : ℤ)) := by omega
    simp [floatToInt, hneg]

lemma floatToInt_nonneg_exp (m : ℤ) (k : ℕ) :
    floatToInt (PyFloat.finite m (k : ℤ)) = PyIntResult.ok (m * twoPow k) := by
  simp [floatToInt, Int.natCast_nonneg, Int.toNat_natCast]

lemma scrapeAux_mem_range (prev : Option Char) (l : List Char) :
    ∀ x ∈ scrapeAux prev l, 1 ≤ x ∧ x ≤ 10 := by
  induction prev, l using scrapeAux.induct with
  | case1 p => simp [scrapeAux]
  | case2 p c h =>
    intro x hx
    rw [Bool.and_eq_true] at h
    simp only [scrapeAux, Bool.and_eq_true, h, and_self, if_true, List.mem_singleton] at hx
    subst hx
    have := digitInt_range h.2
    omega
  | case3 p c h =>
    intro x hx
    simp [scrapeAux, h] at hx
  | case4 p c d rest2 h hd ih =>
    intro x hx
    simp only [scrapeAux, h, hd, if_true, List.mem_cons] at hx
    rcases hx with hx | hx
    · subst hx
      rw [Bool.and_eq_true] at h
      have := digitInt_range h.2
      omega
    · exact ih x hx
  | case5 p c d rest2 h hd h10 ih =>
    intro x hx
    simp [scrapeAux, h, hd, h10] at hx
    rcases hx with hx | hx
    · omega
    · exact ih x hx
  | case6 p c d rest2 h hd h10 ih =>
    intro x hx
    simp [scrapeAux, h, hd, h10] at hx
    exact ih x hx
  | case7 p c d rest2 h ih =>
    intro x hx
    simp only [scrapeAux, h] at hx
    exact ih x hx

lemma scrapeNumbers_mem_range (t : List Char) :
    ∀ x ∈ scrapeNumbers t, 1 ≤ x ∧ x ≤ 10 :=
  scrapeAux_mem_range none t

lemma nonBrace_ne_lbrace {c : Char} (h : nonBrace c = true) : c ≠ lbrace := by
  intro hc
  rw [hc] at h
  exact absurd h (by decide)

lemma scan_cons_of_ne (c : Char) (t : List Char) (h : c ≠ lbrace) :
    scanJsonSpan (c :: t) = scanJsonSpan t := by
  simp [scanJsonSpan, h]

lemma scan_append_of_no_lbrace (p : List Char) (t : List Char)
    (h : ∀ c ∈ p, c ≠ lbrace) : scanJsonSpan (p ++ t) = scanJsonSpan t := by
  induction p with
  | nil => rfl
  | cons c rest ih =>
    rw [List.cons_append, scan_cons_of_ne c _ (h c (by simp))]
    exact ih (fun x hx => h x (by simp [hx]))

lemma takeWhile_all_append {pfn : Char → Bool} {l : List Char} (c : Char) (r : List Char)
    (hl : ∀ x ∈ l, pfn x = true) (hc : pfn c = false) :
    (l ++ c :: r).takeWhile pfn = l := by
  induction l with
  | nil => simp [List.takeWhile_cons, hc]
  | cons a as ih =>
    rw [List.cons_append, List.takeWhile_cons_of_pos (hl a (by simp))]
    rw [ih (fun x hx => hl x (by simp [hx]))]

lemma dropWhile_all_append {pfn : Char → Bool} {l : List Char} (c : Char) (r : List Char)
    (hl : ∀ x ∈ l, pfn x = true) (hc : pfn c = false) :
    (l ++ c :: r).dropWhile pfn = c :: r := by
  induction l with
  | nil => simp [List.dropWhile_cons, hc]
  | cons a as ih =>
    rw [List.cons_append, List.dropWhile_cons_of_pos (hl a (by simp))]
    exact ih (fun x hx => hl x (by simp [hx]))

lemma scan_hit {m rest : List Char} (hm : ∀ x ∈ m, nonBrace x = true)
    (hk : containsSubstr keyPattern m = true) :
    scanJsonSpan (lbrace :: (m ++ rbrace :: rest)) = some (lbrace :: (m ++ [rbrace])) := by
  have hrb : nonBrace rbrace = false := by decide
  have hdw := dropWhile_all_append rbrace rest hm hrb
  have htw := takeWhile_all_append rbrace rest hm hrb
  simp [scanJsonSpan, hdw, htw, hk]

lemma scan_miss {m rest : List Char} (hm : ∀ x ∈ m, nonBrace x = true)
    (hk : containsSubstr keyPattern m = false) :
    scanJsonSpan (lbrace :: (m ++ rbrace :: rest)) = scanJsonSpan rest := by
  have hrb : nonBrace rbrace = false := by decide
  have hdw := dropWhile_all_append rbrace rest hm hrb
  have htw := takeWhile_all_append rbrace rest hm hrb
  rw [scanJsonSpan]
  simp only [if_pos rfl, hdw, htw, hk, Bool.and_false, Bool.false_eq_true, if_false]
  have hnb : ∀ c ∈ m, c ≠ lbrace := by
    intro x hx
    exact nonBrace_ne_lbrace (hm x hx)
  rw [scan_append_of_no_lbrace m (rbrace :: rest) hnb]
  exact scan_cons_of_ne rbrace rest (by decide)

lemma scan_shape {t s : List Char} (h : scanJsonSpan t = some s) :
    ∃ m, s = lbrace :: (m ++ [rbrace]) ∧ (∀ x ∈ m, nonBrace x = true) ∧
      containsSubstr keyPattern m = true := by
  induction t with
  | nil => simp [scanJsonSpan] at h
  | cons c rest ih =>
    by_cases hc : c = lbrace
    · subst hc
      rw [scanJsonSpan] at h
      rw [if_pos rfl] at h
      split at h
      · split at h
        · rename_i hcond
          rw [Bool.and_eq_true, decide_eq_true_eq] at hcond
          injection h with h
          exact ⟨rest.takeWhile nonBrace, h.symm,
            fun x hx => List.mem_takeWhile_imp hx, hcond.2⟩
        · exact ih h
      · exact ih h
    · rw [scan_cons_of_ne c rest hc] at h
      exact ih h

/-- The structured tier evaluated: when the regex finds a span, the span
parses, and all three `int(...)` coercions succeed, `get_auto_score` returns
the clamped scores, the (possibly defaulted) reasoning, and the full text. -/
lemma get_auto_score_structured {t span : List Char}
    {kvs : List (List Char × JVal)} {c e o : ℤ}
    (hspan : scanJsonSpan t = some span)
    (hload : jsonLoads span = some kvs)
    (hc : pyInt ((dictGet kvs "correctness".data).getD (JVal.intLit 0)) = PyIntResult.ok c)
    (he : pyInt ((dictGet kvs "efficiency".data).getD (JVal.intLit 0)) = PyIntResult.ok e)
    (ho : pyInt ((dictGet kvs "outcome".data).getD (JVal.intLit 0)) = PyIntResult.ok o) :
    get_auto_score t = some
      { correctness := clampScore c, efficiency := clampScore e,
        outcome := clampScore o,
        reasoning := (dictGet kvs "reasoning".data).getD
          (JVal.str "No reasoning provided".data),
        raw_response := t } := by
  have ht : t ≠ [] := by rintro rfl; simp [scanJsonSpan] at hspan
  have hne : t.isEmpty = false := by
    cases t
    · exact absurd rfl ht
    · rfl
  rw [get_auto_score]
  rw [if_neg (by simp [hne])]
  simp only [structuredScores, hspan, hload, hc, he, ho]

/-- The raising path evaluated: when the span parses but the `correctness`
coercion meets an infinite float, the uncaught `OverflowError` propagates
and the call returns nothing. -/
lemma get_auto_score_raised {t span : List Char}
    {kvs : List (List Char × JVal)}
    (hspan : scanJsonSpan t = some span)
    (hload : jsonLoads span = some kvs)
    (hc : pyInt ((dictGet kvs "correctness".data).getD (JVal.intLit 0)) =
      PyIntResult.uncaught) :
    get_auto_score t = none := by
  have ht : t ≠ [] := by rintro rfl; simp [scanJsonSpan] at hspan
  have hne : t.isEmpty = false := by
    cases t
    · exact absurd rfl ht
    · rfl
  rw [get_auto_score]
  rw [if_neg (by simp [hne])]
  simp only [structuredScores, hspan, hload, hc]

/-- The numeric-scrape tier evaluated: when the structured tier yields
nothing and at least three digit tokens are found, the first three become the
scores. -/
lemma get_auto_score_scrape {t : List Char} {n1 n2 n3 : ℤ} {rest : List ℤ}
    (ht : t ≠ []) (h2 : structuredScores t = StructOutcome.err)
    (hs : scrapeNumbers t = n1 :: n2 :: n3 :: rest) :
    get_auto_score t = some
      { correctness := n1, efficiency := n2, outcome := n3,
        reasoning := JVal.str "Extracted from non-JSON response".data,
        raw_response := t } := by
  have hne : t.isEmpty = false := by
    cases t
    · exact absurd rfl ht
    · rfl
  rw [get_auto_score]
  rw [if_neg (by simp [hne])]
  simp only [h2, hs]

/-- The total-failure tier evaluated: no structured result and fewer than
three digit tokens give the zero-sentinel triple. -/
lemma get_auto_score_failed {t : List Char}
    (ht : t ≠ []) (h2 : structuredScores t = StructOutcome.err)
    (hs : (scrapeNumbers t).length < 3) :
    get_auto_score t = some
      { correctness := 0, efficiency := 0, outcome := 0,
        reasoning := JVal.str "Could not parse judge response".data,
        raw_response := t } := by
  have hne : t.isEmpty = false := by
    cases t
    · exact absurd rfl ht
    · rfl
  rw [get_auto_score]
  rw [if_neg (by simp [hne])]
  rcases hl : scrapeNumbers t with _ | ⟨a, _ | ⟨b, _ | ⟨c, r⟩⟩⟩
  · simp only [h2, hl]
  · simp only [h2, hl]
  · simp only [h2, hl]
  · rw [hl] at hs
    simp only [List.length_cons] at hs
    omega

lemma clampScore_of_nonpos {n : ℤ} (h : n ≤ 0) : clampScore n = 0 := by
  unfold clampScore; split <;> omega

lemma clampScore_zero : clampScore 0 = 0 := rfl

/-! Claim theorems. -/

/-- C1: when the first non-nested brace span containing the key parses as a
flat JSON object whose `correctness`, `efficiency`, `outcome` fields are
integer literals c, e, o in [1,10] and whose `reasoning` is the string r,
`get_auto_score` returns exactly (c, e, o, r), with `raw_response` the full
original input text rather than only the matched span. -/
theorem C1_structured_roundtrip
    (t span : List Char) (kvs : List (List Char × JVal)) (c e o : ℤ) (r : List Char)
    (hspan : scanJsonSpan t = some span)
    (hload : jsonLoads span = some kvs)
    (hc : dictGet kvs "correctness".data = some (JVal.intLit c))
    (he : dictGet kvs "efficiency".data = some (JVal.intLit e))
    (ho : dictGet kvs "outcome".data = some (JVal.intLit o))
    (hr : dictGet kvs "reasoning".data = some (JVal.str r))
    (hc1 : 1 ≤ c) (hc10 : c ≤ 10) (he1 : 1 ≤ e) (he10 : e ≤ 10)
    (ho1 : 1 ≤ o) (ho10 : o ≤ 10) :
    get_auto_score t = some
      { correctness := c, efficiency := e, outcome := o,
        reasoning := JVal.str r, raw_response := t } := by
  have hc2 : pyInt ((dictGet kvs "correctness".data).getD (JVal.intLit 0)) =
      PyIntResult.ok c := by rw [hc]; rfl
  have he2 : pyInt ((dictGet kvs "efficiency".data).getD (JVal.intLit 0)) =
      PyIntResult.ok e := by rw [he]; rfl
  have ho2 : pyInt ((dictGet kvs "outcome".data).getD (JVal.intLit 0)) =
      PyIntResult.ok o := by rw [ho]; rfl
  rw [get_auto_score_structured hspan hload hc2 he2 ho2, hr]
  rw [clampScore_eq_self hc1 hc10, clampScore_eq_self he1 he10, clampScore_eq_self ho1 ho10]
  simp

/-- Witness for C1 on a concrete judge reply with prose around the JSON. -/
theorem C1_structured_roundtrip_witness :
    get_auto_score
        "Verdict: \x7b\"correctness\": 7, \"efficiency\": 8, \"outcome\": 9, \"reasoning\": \"good answer\"\x7d done".data =
      some
        { correctness := 7, efficiency := 8, outcome := 9,
          reasoning := JVal.str "good answer".data,
          raw_response :=
            "Verdict: \x7b\"correctness\": 7, \"efficiency\": 8, \"outcome\": 9, \"reasoning\": \"good answer\"\x7d done".data } :=
  C1_structured_roundtrip _
    "\x7b\"correctness\": 7, \"efficiency\": 8, \"outcome\": 9, \"reasoning\": \"good answer\"\x7d".data
    [("correctness".data, JVal.intLit 7), ("efficiency".data, JVal.intLit 8),
     ("outcome".data, JVal.intLit 9), ("reasoning".data, JVal.str "good answer".data)]
    7 8 9 "good answer".data
    (by decide) (by decide) (by decide) (by decide) (by decide) (by decide)
    (by decide) (by decide) (by decide) (by decide) (by decide) (by decide)

/-- C2 counterexample: the claim says a raw parsed value strictly between 0
and 1 is clamped to 1; on the code, the reply below has correctness 0.5 (a
raw value in (0,1), parsed to the double 1 * 2^-1) handled by the structured
tier, yet the output correctness is 0, not 1 — `int()` truncates toward zero
before the clamp. -/
theorem C2_clamp_counterexample :
    scanJsonSpan
        "\x7b\"correctness\": 0.5, \"efficiency\": 5, \"outcome\": 5, \"reasoning\": \"x\"\x7d".data =
      some "\x7b\"correctness\": 0.5, \"efficiency\": 5, \"outcome\": 5, \"reasoning\": \"x\"\x7d".data ∧
    jsonLoads
        "\x7b\"correctness\": 0.5, \"efficiency\": 5, \"outcome\": 5, \"reasoning\": \"x\"\x7d".data =
      some [("correctness".data, JVal.floatLit (PyFloat.finite 1 (-1))),
            ("efficiency".data, JVal.intLit 5),
            ("outcome".data, JVal.intLit 5), ("reasoning".data, JVal.str "x".data)] ∧
    (0 : ℚ) < ((1 : ℤ) : ℚ) / 2 ^ (1 : ℕ) ∧ ((1 : ℤ) : ℚ) / 2 ^ (1 : ℕ) < 1 ∧
    get_auto_score
        "\x7b\"correctness\": 0.5, \"efficiency\": 5, \"outcome\": 5, \"reasoning\": \"x\"\x7d".data =
      some
        { correctness := 0, efficiency := 5, outcome := 5,
          reasoning := JVal.str "x".data,
          raw_response :=
            "\x7b\"correctness\": 0.5, \"efficiency\": 5, \"outcome\": 5, \"reasoning\": \"x\"\x7d".data } :=
  ⟨by decide, by decide, by norm_num, by norm_num, by decide⟩

/-- C2 (amended): in the structured tier each numeric field is the parsed
Python number (an exact int for an integer literal, the nearest binary64
double otherwise) coerced with `int()`, which truncates toward zero, and
then clamped.  A coerced value above 10 becomes 10, so finite raw values
above 10 clamp to 10; a coerced value of at least 1 stays in [1,10]; and a
coerced value of at most 0 — which includes every double in (0,1), so raw
literals such as 0.5 — becomes exactly 0, never 1.  A literal whose double
rounds to an infinity (such as 1e400) makes `int()` raise an uncaught
`OverflowError` instead of producing a clamped score. -/
theorem C2_clamping_amended :
    (∀ (t span : List Char) (kvs : List (List Char × JVal)) (c e o : ℤ),
      scanJsonSpan t = some span → jsonLoads span = some kvs →
      pyInt ((dictGet kvs "correctness".data).getD (JVal.intLit 0)) = PyIntResult.ok c →
      pyInt ((dictGet kvs "efficiency".data).getD (JVal.intLit 0)) = PyIntResult.ok e →
      pyInt ((dictGet kvs "outcome".data).getD (JVal.intLit 0)) = PyIntResult.ok o →
      get_auto_score t = some
        { correctness := clampScore c, efficiency := clampScore e,
          outcome := clampScore o,
          reasoning := (dictGet kvs "reasoning".data).getD
            (JVal.str "No reasoning provided".data),
          raw_response := t }) ∧
    (∀ n : ℤ,
      (10 < n → clampScore n = 10) ∧
      (1 ≤ n → 1 ≤ clampScore n ∧ clampScore n ≤ 10 ∧ clampScore n = min 10 n) ∧
      (n ≤ 0 → clampScore n = 0)) ∧
    (∀ (m : ℤ) (k : ℕ),
      floatToInt (PyFloat.finite m (-(k : ℤ))) = PyIntResult.ok (truncTwo m k) ∧
      (10 < (m : ℚ) / 2 ^ k → clampScore (truncTwo m k) = 10) ∧
      (1 ≤ (m : ℚ) / 2 ^ k → 1 ≤ clampScore (truncTwo m k) ∧ clampScore (truncTwo m k) ≤ 10) ∧
      ((m : ℚ) / 2 ^ k < 1 → clampScore (truncTwo m k) = 0)) ∧
    (floatToInt PyFloat.inf = PyIntResult.uncaught ∧
     floatToInt PyFloat.neginf = PyIntResult.uncaught) ∧
    (∀ (t span : List Char) (kvs : List (List Char × JVal)),
      scanJsonSpan t = some span → jsonLoads span = some kvs →
      dictGet kvs "correctness".data = some (JVal.floatLit PyFloat.inf) →
      get_auto_score t = none) := by
  refine ⟨?_, ?_, ?_, ⟨rfl, rfl⟩, ?_⟩
  · intro t span kvs c e o hspan hload hc he ho
    exact get_auto_score_structured hspan hload hc he ho
  · intro n
    refine ⟨fun h => ?_, fun h => ?_, fun h => ?_⟩ <;> unfold clampScore <;> split <;> omega
  · intro m k
    refine ⟨floatToInt_neg_exp m k, fun h => ?_, fun h => ?_, fun h => ?_⟩
    · have h1 : 10 * twoPow k ≤ m := le_of_lt ((ten_lt_q2_iff m k).mp h)
      have h2 := truncTwo_ten_le h1
      unfold clampScore
      split <;> omega
    · have h1 : twoPow k ≤ m := (one_le_q2_iff m k).mp h
      have h2 := truncTwo_one_le h1
      unfold clampScore
      split <;> omega
    · have h1 : m < twoPow k := (q2_lt_one_iff m k).mp h
      by_cases hm : 0 ≤ m
      · rw [truncTwo_eq_zero_of_lt hm h1]
        exact clampScore_zero
      · exact clampScore_of_nonpos (truncTwo_nonpos_of_neg (by omega))
  · intro t span kvs hspan hload hc
    exact get_auto_score_raised hspan hload (by rw [hc]; rfl)

/-- Witness for the amended C2 on a concrete reply whose fields are 99, -3
and 12.5: truncate-then-clamp gives 10, 0 and 10. -/
theorem C2_clamping_amended_witness :
    get_auto_score
        "\x7b\"correctness\": 99, \"efficiency\": -3, \"outcome\": 12.5, \"reasoning\": \"z\"\x7d".data =
      some
        { correctness := clampScore 99, efficiency := clampScore (-3),
          outcome := clampScore 12,
          reasoning := (dictGet
            [("correctness".data, JVal.intLit 99), ("efficiency".data, JVal.intLit (-3)),
             ("outcome".data, JVal.floatLit (PyFloat.finite 25 (-1))),
             ("reasoning".data, JVal.str "z".data)] "reasoning".data).getD
            (JVal.str "No reasoning provided".data),
          raw_response :=
            "\x7b\"correctness\": 99, \"efficiency\": -3, \"outcome\": 12.5, \"reasoning\": \"z\"\x7d".data } :=
  C2_clamping_amended.1 _
    "\x7b\"correctness\": 99, \"efficiency\": -3, \"outcome\": 12.5, \"reasoning\": \"z\"\x7d".data
    [("correctness".data, JVal.intLit 99), ("efficiency".data, JVal.intLit (-3)),
     ("outcome".data, JVal.floatLit (PyFloat.finite 25 (-1))),
     ("reasoning".data, JVal.str "z".data)]
    99 (-3) 12
    (by decide) (by decide) (by decide) (by decide) (by decide)

/-- C3 counterexample: the claim says a non-numeric field value (here
`"efficiency": "high"`) still yields a structured-tier JudgeScore with that
field 0; on the code, `int("high")` raises `ValueError`, the exception is
swallowed at line 250, and the extractor falls through past the numeric
scrape (only two digit tokens) to the zero-sentinel result instead. -/
theorem C3_nonnumeric_counterexample :
    scanJsonSpan
        "\x7b\"correctness\": 3, \"efficiency\": \"high\", \"outcome\": 3, \"reasoning\": \"x\"\x7d".data =
      some "\x7b\"correctness\": 3, \"efficiency\": \"high\", \"outcome\": 3, \"reasoning\": \"x\"\x7d".data ∧
    jsonLoads
        "\x7b\"correctness\": 3, \"efficiency\": \"high\", \"outcome\": 3, \"reasoning\": \"x\"\x7d".data =
      some [("correctness".data, JVal.intLit 3), ("efficiency".data, JVal.str "high".data),
            ("outcome".data, JVal.intLit 3), ("reasoning".data, JVal.str "x".data)] ∧
    get_auto_score
        "\x7b\"correctness\": 3, \"efficiency\": \"high\", \"outcome\": 3, \"reasoning\": \"x\"\x7d".data =
      some
        { correctness := 0, efficiency := 0, outcome := 0,
          reasoning := JVal.str "Could not parse judge response".data,
          raw_response :=
            "\x7b\"correctness\": 3, \"efficiency\": \"high\", \"outcome\": 3, \"reasoning\": \"x\"\x7d".data } := by
  refine ⟨by decide, by decide, by decide⟩

/-- C3 (amended): when the JSON span parses, fields that are absent default
to 0 and an absent `reasoning` defaults to "No reasoning provided" — the
absence itself never raises; but a present field value that `int()` cannot
coerce makes the structured tier fall through to the scrape fallback (a
caught `ValueError`/`TypeError`) rather than defaulting that field to 0, and
a present value whose parsed double is infinite raises an uncaught
`OverflowError` to the caller. -/
theorem C3_defaults_amended
    (t span : List Char) (kvs : List (List Char × JVal)) (vc : JVal) (nc : ℤ)
    (hspan : scanJsonSpan t = some span)
    (hload : jsonLoads span = some kvs)
    (hc : dictGet kvs "correctness".data = some vc)
    (hok : pyInt vc = PyIntResult.ok nc)
    (he : dictGet kvs "efficiency".data = none)
    (ho : dictGet kvs "outcome".data = none)
    (hr : dictGet kvs "reasoning".data = none) :
    get_auto_score t = some
      { correctness := clampScore nc, efficiency := 0, outcome := 0,
        reasoning := JVal.str "No reasoning provided".data, raw_response := t } := by
  have hc2 : pyInt ((dictGet kvs "correctness".data).getD (JVal.intLit 0)) =
      PyIntResult.ok nc := by rw [hc]; exact hok
  have he2 : pyInt ((dictGet kvs "efficiency".data).getD (JVal.intLit 0)) =
      PyIntResult.ok 0 := by rw [he]; rfl
  have ho2 : pyInt ((dictGet kvs "outcome".data).getD (JVal.intLit 0)) =
      PyIntResult.ok 0 := by rw [ho]; rfl
  rw [get_auto_score_structured hspan hload hc2 he2 ho2, hr]
  simp [clampScore_zero]

/-- Witness for the amended C3 on a reply carrying only the correctness key. -/
theorem C3_defaults_amended_witness :
    get_auto_score "\x7b\"correctness\": 7\x7d".data =
      some
        { correctness := clampScore 7, efficiency := 0, outcome := 0,
          reasoning := JVal.str "No reasoning provided".data,
          raw_response := "\x7b\"correctness\": 7\x7d".data } :=
  C3_defaults_amended _ "\x7b\"correctness\": 7\x7d".data
    [("correctness".data, JVal.intLit 7)] (JVal.intLit 7) 7
    (by decide) (by decide) (by decide) (by decide) (by decide) (by decide) (by decide)

/-- C4: whenever the structured tier does not succeed and falls through, the
numeric-scrape fallback takes the first three word-bounded digit tokens
(single digits 1-9 or the literal 10) of the full text as the scores, with
the fixed rationale and the full text as raw response; tokens inside longer
words or numbers such as "100" or "a1b" never match, and the concrete prose
reply scores (7, 8, 9). -/
theorem C4_numeric_scrape (t : List Char) (n1 n2 n3 : ℤ) (rest : List ℤ)
    (ht : t ≠ []) (h2 : structuredScores t = StructOutcome.err)
    (hs : scrapeNumbers t = n1 :: n2 :: n3 :: rest) :
    get_auto_score t = some
      { correctness := n1, efficiency := n2, outcome := n3,
        reasoning := JVal.str "Extracted from non-JSON response".data,
        raw_response := t } ∧
    scrapeNumbers "100".data = [] ∧
    scrapeNumbers "a1b".data = [] ∧
    get_auto_score "I think this deserves 7, 8, 9 overall.".data =
      some
        { correctness := 7, efficiency := 8, outcome := 9,
          reasoning := JVal.str "Extracted from non-JSON response".data,
          raw_response := "I think this deserves 7, 8, 9 overall.".data } :=
  ⟨get_auto_score_scrape ht h2 hs, by decide, by decide, by decide⟩

/-- Witness for C4 on the concrete prose reply. -/
theorem C4_numeric_scrape_witness :
    get_auto_score "I think this deserves 7, 8, 9 overall.".data =
      some
        { correctness := 7, efficiency := 8, outcome := 9,
          reasoning := JVal.str "Extracted from non-JSON response".data,
          raw_response := "I think this deserves 7, 8, 9 overall.".data } :=
  (C4_numeric_scrape "I think this deserves 7, 8, 9 overall.".data 7 8 9 []
    (by decide) (by decide) (by decide)).1

/-- C5: the structured-JSON search returns a brace span that never crosses a
nested brace (its body is brace-free) and always contains the key; any
brace spans lacking the key that precede it are skipped, so in a text with
two spans where only the second holds the key, the second is located, and on
a concrete such reply the second span is also the one parsed for the scores. -/
theorem C5_first_span_with_key :
    (∀ t s : List Char, scanJsonSpan t = some s →
      ∃ m, s = lbrace :: (m ++ [rbrace]) ∧ (∀ x ∈ m, nonBrace x = true) ∧
        containsSubstr keyPattern m = true) ∧
    (∀ p m1 q m2 rest : List Char,
      (∀ c ∈ p, c ≠ lbrace) →
      (∀ x ∈ m1, nonBrace x = true) →
      containsSubstr keyPattern m1 = false →
      (∀ c ∈ q, c ≠ lbrace) →
      (∀ x ∈ m2, nonBrace x = true) →
      containsSubstr keyPattern m2 = true →
      scanJsonSpan
          (p ++ (lbrace :: (m1 ++ rbrace :: (q ++ (lbrace :: (m2 ++ rbrace :: rest)))))) =
        some (lbrace :: (m2 ++ [rbrace]))) ∧
    (get_auto_score
        "\x7b\"note\": 1\x7d and \x7b\"correctness\": 4, \"efficiency\": 5, \"outcome\": 6, \"reasoning\": \"ok\"\x7d".data =
      some
        { correctness := 4, efficiency := 5, outcome := 6,
          reasoning := JVal.str "ok".data,
          raw_response :=
            "\x7b\"note\": 1\x7d and \x7b\"correctness\": 4, \"efficiency\": 5, \"outcome\": 6, \"reasoning\": \"ok\"\x7d".data }) := by
  refine ⟨fun t s h => scan_shape h, fun p m1 q m2 rest hp hm1 hk1 hq hm2 hk2 => ?_, by decide⟩
  rw [scan_append_of_no_lbrace p _ hp, scan_miss hm1 hk1,
    scan_append_of_no_lbrace q _ hq, scan_hit hm2 hk2]

/-- Witness for C5: a concrete text whose first brace span lacks the key and
whose second carries it; the scan returns the second span. -/
theorem C5_first_span_with_key_witness :
    scanJsonSpan
        ("prose ".data ++ (lbrace :: ("\"note\": 1".data ++ rbrace :: (" and ".data ++
          (lbrace :: ("\"correctness\": 4".data ++ rbrace :: " tail".data)))))) =
      some (lbrace :: ("\"correctness\": 4".data ++ [rbrace])) :=
  C5_first_span_with_key.2.1 "prose ".data "\"note\": 1".data " and ".data
    "\"correctness\": 4".data " tail".data
    (by decide) (by decide) (by decide) (by decide) (by decide) (by decide)

set_option maxRecDepth 40000 in
/-- C6: the claim says the extractor is total and never raises for every
input whatsoever; the code is wrong there, against the stated failure
semantics of its own try/except (line 250 catches only JSONDecodeError,
ValueError and TypeError).  On the reply below, `json.loads` parses
`1e400` to the double infinity and `int(inf)` raises an uncaught
`OverflowError`, so the call raises instead of returning a JudgeScore
(first conjunct).  The remaining conjuncts evaluate the parts of the claim
that do hold: the span of the failing reply parses with correctness infinite,
the empty reply returns the zero sentinel with "Judge returned empty
response", and unusable noise returns the zero sentinel with "Could not
parse judge response". -/
theorem C6_overflow_uncaught :
    get_auto_score
        "\x7b\"correctness\": 1e400, \"efficiency\": 1, \"outcome\": 1, \"reasoning\": \"x\"\x7d".data =
      none ∧
    jsonLoads
        "\x7b\"correctness\": 1e400, \"efficiency\": 1, \"outcome\": 1, \"reasoning\": \"x\"\x7d".data =
      some [("correctness".data, JVal.floatLit PyFloat.inf), ("efficiency".data, JVal.intLit 1),
            ("outcome".data, JVal.intLit 1), ("reasoning".data, JVal.str "x".data)] ∧
    get_auto_score [] =
      some
        { correctness := 0, efficiency := 0, outcome := 0,
          reasoning := JVal.str "Judge returned empty response".data, raw_response := [] } ∧
    get_auto_score "cannot score this".data =
      some
        { correctness := 0, efficiency := 0, outcome := 0,
          reasoning := JVal.str "Could not parse judge response".data,
          raw_response := "cannot score this".data } := by
  refine ⟨by decide, by decide, by decide, by decide⟩

/-- C7 counterexample: the claim says no output mixes a positive score with a
sentinel 0; the structured tier on the reply below returns (5, 0, 7), a
positive correctness and outcome next to a zero efficiency. -/
theorem C7_mixed_counterexample :
    get_auto_score
        "\x7b\"correctness\": 5, \"efficiency\": 0, \"outcome\": 7, \"reasoning\": \"ok\"\x7d".data =
      some
        { correctness := 5, efficiency := 0, outcome := 7,
          reasoning := JVal.str "ok".data,
          raw_response :=
            "\x7b\"correctness\": 5, \"efficiency\": 0, \"outcome\": 7, \"reasoning\": \"ok\"\x7d".data } := by
  decide

/-- C7 (amended): outside a successful structured parse the three fields are
set together: whenever the structured tier falls through, the call returns a
JudgeScore whose three fields either all come from the scrape fallback and
lie in [1,10], or are all the sentinel 0.  (A successful structured parse
sets each field independently and can mix 0 with positive values, as the
counterexample shows.) -/
theorem C7_sentinel_amended (t : List Char) (h2 : structuredScores t = StructOutcome.err) :
    ∃ g, get_auto_score t = some g ∧
      ((1 ≤ g.correctness ∧ g.correctness ≤ 10 ∧ 1 ≤ g.efficiency ∧ g.efficiency ≤ 10 ∧
        1 ≤ g.outcome ∧ g.outcome ≤ 10) ∨
       (g.correctness = 0 ∧ g.efficiency = 0 ∧ g.outcome = 0)) := by
  by_cases hE : t = []
  · subst hE
    refine ⟨⟨0, 0, 0, JVal.str "Judge returned empty response".data, []⟩,
      by decide, Or.inr (by decide)⟩
  · rcases h3 : scrapeNumbers t with _ | ⟨a, _ | ⟨b, _ | ⟨c, r⟩⟩⟩
    · exact ⟨_, get_auto_score_failed hE h2 (by rw [h3]; simp), Or.inr ⟨rfl, rfl, rfl⟩⟩
    · exact ⟨_, get_auto_score_failed hE h2 (by rw [h3]; simp), Or.inr ⟨rfl, rfl, rfl⟩⟩
    · exact ⟨_, get_auto_score_failed hE h2 (by rw [h3]; simp), Or.inr ⟨rfl, rfl, rfl⟩⟩
    · have hmem := scrapeNumbers_mem_range t
      rw [h3] at hmem
      have ha := hmem a (by simp)
      have hb := hmem b (by simp)
      have hc := hmem c (by simp)
      exact ⟨_, get_auto_score_scrape hE h2 h3,
        Or.inl ⟨ha.1, ha.2, hb.1, hb.2, hc.1, hc.2⟩⟩

/-- Witness for the amended C7 on the concrete scrape reply. -/
theorem C7_sentinel_amended_witness :
    ∃ g, get_auto_score "I think this deserves 7, 8, 9 overall.".data = some g ∧
      ((1 ≤ g.correctness ∧ g.correctness ≤ 10 ∧ 1 ≤ g.efficiency ∧ g.efficiency ≤ 10 ∧
        1 ≤ g.outcome ∧ g.outcome ≤ 10) ∨
       (g.correctness = 0 ∧ g.efficiency = 0 ∧ g.outcome = 0)) :=
  C7_sentinel_amended "I think this deserves 7, 8, 9 overall.".data (by decide)

/-- C8: a score record built from a JudgeScore carries composite
round(mean(correctness, efficiency, outcome), 1) and status "OK" when
correctness is positive, and composite 0 with status "SCORE_FAILED" —
distinct from the transport status "ERROR" — when correctness is 0,
regardless of the efficiency and outcome values. -/
theorem C8_composite_status (s : JudgeScore) :
    (0 < s.correctness →
      composite_and_status s =
        (pythonRound 1 (((s.correctness : ℚ) + (s.efficiency : ℚ) + (s.outcome : ℚ)) / 3),
         "OK".data)) ∧
    (s.correctness = 0 → composite_and_status s = (0, "SCORE_FAILED".data)) ∧
    "SCORE_FAILED".data ≠ "ERROR".data := by
  refine ⟨fun h => ?_, fun h => ?_, by decide⟩
  · rw [composite_and_status, if_pos h]
  · rw [composite_and_status, if_neg (by omega)]

/-- Witness for C8 at two concrete JudgeScores, one per branch. -/
theorem C8_composite_status_witness :
    composite_and_status
        { correctness := 8, efficiency := 7, outcome := 9,
          reasoning := JVal.null, raw_response := [] } =
      (pythonRound 1 ((((8:ℤ) : ℚ) + ((7:ℤ) : ℚ) + ((9:ℤ) : ℚ)) / 3), "OK".data) ∧
    composite_and_status
        { correctness := 0, efficiency := 9, outcome := 9,
          reasoning := JVal.null, raw_response := [] } =
      (0, "SCORE_FAILED".data) :=
  ⟨(C8_composite_status _).1 (by decide), (C8_composite_status _).2.1 rfl⟩

/-- C9: the throughput computation returns the token count divided by the
duration in seconds, rounded to two decimals, when the duration is positive,
and exactly 0 when the duration is zero (or, equally, negative), never
raising a division error (the function is total). -/
theorem C9_throughput_guard (c d : ℤ) :
    (d = 0 → calculate_tokens_per_sec c d = 0) ∧
    (d < 0 → calculate_tokens_per_sec c d = 0) ∧
    (0 < d → calculate_tokens_per_sec c d =
      pythonRound 2 ((c : ℚ) / ((d : ℚ) / 1000000000))) := by
  refine ⟨fun h => ?_, fun h => ?_, fun h => ?_⟩
  · rw [calculate_tokens_per_sec, if_neg (by omega)]
  · rw [calculate_tokens_per_sec, if_neg (by omega)]
  · rw [calculate_tokens_per_sec, if_pos ⟨by omega, h⟩]

/-- Witness for C9 at a zero and a positive duration. -/
theorem C9_throughput_guard_witness :
    calculate_tokens_per_sec 500 0 = 0 ∧
    calculate_tokens_per_sec 500 1000000000 =
      pythonRound 2 (((500:ℤ) : ℚ) / (((1000000000:ℤ) : ℚ) / 1000000000)) :=
  ⟨(C9_throughput_guard 500 0).1 rfl, (C9_throughput_guard 500 1000000000).2.2 (by decide)⟩

/-- C10: for nonnegative task composites (the only values the script
produces) the per-model average equals the mean, rounded to one decimal, of
the nonzero composites alone, and is 0 when all three are zero; in
particular composites (8, 0, 7) average to 7.5, not 5. -/
theorem C10_average_nonzero_mean :
    (∀ r c l : ℚ, 0 ≤ r → 0 ≤ c → 0 ≤ l →
      model_average r c l = specNonzeroMean r c l) ∧
    model_average 8 0 7 = 15 / 2 ∧
    model_average 0 0 0 = 0 := by
  refine ⟨fun r c l hr hc hl => ?_, ?_, ?_⟩
  · have hfil : ∀ x ∈ [r, c, l], (decide (0 < x)) = (decide (x ≠ 0)) := by
      intro x hx
      have hx0 : 0 ≤ x := by
        simp only [List.mem_cons, List.mem_singleton, List.not_mem_nil, or_false] at hx
        rcases hx with rfl | rfl | rfl <;> assumption
      rw [decide_eq_decide]
      constructor
      · intro h
        exact ne_of_gt h
      · intro h
        exact lt_of_le_of_ne hx0 (Ne.symm h)
    rw [model_average, specNonzeroMean, List.filter_congr hfil]
  · rw [model_average]
    norm_num [List.filter, pythonRound, roundHalfEven]
  · rw [model_average]
    norm_num [List.filter]

/-- Witness for C10 at the all-zero composites. -/
theorem C10_average_nonzero_mean_witness :
    model_average 0 0 0 = specNonzeroMean 0 0 0 :=
  C10_average_nonzero_mean.1 0 0 0 (le_refl 0) (le_refl 0) (le_refl 0)

end BenchmarkAutoScore
